import Mathlib

set_option maxRecDepth 1000000

/-!
Verification of the notion-comment-sync pipeline.

This file gives a shallow embedding, in Lean, of the core logic of the
notion-comment-sync repository: the comment fetcher that groups page
comments into discussion threads (src/comment-fetcher.js), the content
processor that classifies comments and renders page blocks
(content-processor.js, both of its duplicated implementations), the
database writer and the sync driver (src/database-writer.js,
src/main.js), the Notion client query helpers (src/notion-client.js)
and the reference/card workflow guards (src/workflow-manager.js,
action-task-creator.js).

External I/O (the Notion API, SMTP dispatch) is modeled by explicit
environment parameters: database contents are passed in as lists of
rows, write outcomes as boolean-valued environments, and a thrown query
error as a boolean flag.  JavaScript strings are modeled by Lean
strings, and the JS string methods used by the source (trim,
startsWith, slice, replace, includes-style filters) are re-implemented
below as structural functions on the character list of a string so that
every definition evaluates inside the kernel.
-/

namespace NotionSync

/-! ## JavaScript string primitives -/

/-- Character class of the JS `\s` regex class and of `String.prototype.trim`
(Unicode whitespace; the inputs handled by the pipeline only use ASCII
whitespace, where the two notions agree). -/
def isJsWs (c : Char) : Bool := c.isWhitespace

/-- Model of `s.trim()`: drop whitespace from both ends. -/
def jsTrim (s : String) : String :=
  String.mk (((s.data.dropWhile isJsWs).reverse.dropWhile isJsWs).reverse)

/-- Model of `s.startsWith(p)`. -/
def jsStartsWith (s p : String) : Bool := p.data.isPrefixOf s.data

/-- Model of the Notion `title: contains` filter (substring containment). -/
def containsSubstr (s pat : String) : Bool := decide (List.IsInfix pat.data s.data)

/-- Model of the dash-removing replace applied to page ids (a global
regex replace that deletes every "-" character). -/
def stripDashes (s : String) : String := String.mk (s.data.filter (fun c => c != '-'))

/-- Model of `s.slice(-n)` (the last `n` characters). -/
def lastChars (n : Nat) (s : String) : String :=
  String.mk (s.data.drop (s.data.length - n))

/-! ## Data model

`Comment` mirrors a Notion comment object as used by the source:
`discussion_id`, a `rich_text` array of items carrying `plain_text`,
`created_time` (an ISO timestamp, modeled as a `Nat` so that the JS
comparison `new Date(a) - new Date(b)` becomes `≤` on `Nat`), the
`created_by` fields, and the `blockInfo` annex that
`fetchAndGroupComments` attaches. -/

structure RichTextItem where
  plain_text : String
deriving DecidableEq

structure BlockInfo where
  id : String
  type : String
  content : String
deriving DecidableEq

structure Comment where
  discussion_id : String
  rich_text : List RichTextItem
  created_time : Nat
  created_by_name : Option String
  created_by_id : Option String
  blockInfo : Option BlockInfo
deriving DecidableEq

/-- A block of the source page, together with the comments attached to it
(the result of `comments.list` for this block, an environment input). -/
structure Block where
  id : String
  type : String
  richText : List RichTextItem
  comments : List Comment
deriving DecidableEq

structure SourceNote where
  id : String
  title : String
  url : String
deriving DecidableEq

/-- A discussion thread as produced by `CommentFetcher.filterValidDiscussions`. -/
structure Discussion where
  discussionId : String
  title : String
  comments : List Comment
  sourceNote : Option SourceNote
deriving DecidableEq

/-! ## CommentFetcher (src/comment-fetcher.js) -/

/-- The `alternativePrefixes` list of `CommentFetcher`. -/
def alternativePrefixes : List String :=
  ["A:", "A：", "A: ", "Q:", "Q：", "Q: ", "→:", "→：", "→: "]

/-- Model of `CommentFetcher.extractCommentText`: join the `plain_text` of
all rich-text items and trim. -/
def extractCommentText (c : Comment) : String :=
  if c.rich_text.isEmpty then ""
  else jsTrim (String.join (c.rich_text.map (·.plain_text)))

/-- The valid-marker test applied per comment in `filterValidDiscussions`:
`this.alternativePrefixes.some(prefix => commentText.trim().startsWith(prefix))`. -/
def textHasValidMarker (t : String) : Bool :=
  alternativePrefixes.any (fun p => jsStartsWith (jsTrim t) p)

def commentHasValidMarker (c : Comment) : Bool :=
  textHasValidMarker (extractCommentText c)

/-- Comparison used by `comments.sort((a, b) => new Date(a.created_time) - new Date(b.created_time))`. -/
def byCreatedTime (a b : Comment) : Bool := decide (a.created_time ≤ b.created_time)

/-- Insertion of an element into a sorted list, in front of the first
element it is `le`-below-or-equal: combined with `insertionSortBy` this
realizes a stable sort (equal elements keep their input order). -/
def orderedInsert (le : α → α → Bool) (x : α) : List α → List α
  | [] => [x]
  | y :: ys => if le x y then x :: y :: ys else y :: orderedInsert le x ys

/-- A stable insertion sort, used to model the stable `Array.prototype.sort`
of JS: any stable sort by the same comparator produces the same list, and
this one evaluates inside the kernel. -/
def insertionSortBy (le : α → α → Bool) : List α → List α
  | [] => []
  | x :: xs => orderedInsert le x (insertionSortBy le xs)

/-- Model of the in-place `Array.prototype.sort` call: a stable sort by
`created_time` (JS array sort is specified to be stable). -/
def sortCommentsByTime (l : List Comment) : List Comment := insertionSortBy byCreatedTime l

/-- Key order of `groupCommentsByDiscussion`: JS object keys of an object
built by insertion enumerate in first-insertion order. -/
def discussionKeys (comments : List Comment) : List String :=
  comments.foldl
    (fun ks c => if ks.contains c.discussion_id then ks else ks ++ [c.discussion_id]) []

/-- The group of a discussion id, in fetch order (`grouped[discussionId].push(comment)`). -/
def groupOf (comments : List Comment) (k : String) : List Comment :=
  comments.filter (fun c => c.discussion_id == k)

/-- Model of the title strip in `filterValidDiscussions`: the source builds
a regex from "^", the found marker string and a whitespace-star class, and
replaces its match by the empty string.  The marker strings contain no regex
metacharacters, so this strips the literal marker and any whitespace
following it, anchored at the start. -/
def stripFoundMarker (p s : String) : String :=
  if jsStartsWith s p then String.mk ((s.data.drop p.data.length).dropWhile isJsWs) else s

/-- Model of `CommentFetcher.filterValidDiscussions`: keep groups with at
least one marker-carrying comment, sort each kept group by `created_time`
(stable), and derive the title from the first marker-carrying comment of
the sorted group. -/
def filterValidDiscussions (comments : List Comment) : List Discussion :=
  (discussionKeys comments).filterMap fun discussionId =>
    let group := groupOf comments discussionId
    if group.any commentHasValidMarker then
      let sorted := sortCommentsByTime group
      match sorted.find? commentHasValidMarker with
      | some titleComment =>
        let titleText := extractCommentText titleComment
        match alternativePrefixes.find? (fun p => jsStartsWith (jsTrim titleText) p) with
        | some actualPrefixStr =>
          some { discussionId := discussionId,
                 title := jsTrim (stripFoundMarker actualPrefixStr (jsTrim titleText)),
                 comments := sorted,
                 sourceNote := none }
        | none => none
      | none => none
    else none

/-- Model of `CommentFetcher.extractBlockContent`: recognized block kinds
expose the joined `plain_text` of their rich text; unrecognized kinds
render as a bracketed type tag. -/
def extractBlockContent (b : Block) : String :=
  if b.type == "paragraph" || b.type == "heading_1" || b.type == "heading_2"
      || b.type == "heading_3" || b.type == "bulleted_list_item"
      || b.type == "numbered_list_item" || b.type == "quote" || b.type == "callout" then
    String.join (b.richText.map (·.plain_text))
  else "[" ++ b.type ++ "]"

/-- Comment collection of `fetchAndGroupComments`: keep blocks with at
least one comment (`getPageBlocksWithComments`) and attach `blockInfo`
to each of their comments. -/
def allCommentsOf (blocks : List Block) : List Comment :=
  (blocks.filter (fun b => !b.comments.isEmpty)).flatMap
    (fun b => b.comments.map
      (fun c => { c with blockInfo := some ⟨b.id, b.type, extractBlockContent b⟩ }))

/-- Pure core of `CommentFetcher.fetchAndGroupComments` for one page. -/
def fetchAndGroupComments (blocks : List Block) : List Discussion :=
  filterValidDiscussions (allCommentsOf blocks)

/-! ## ContentProcessor (content-processor.js)

The repository contains two full implementations of `ContentProcessor`.
They differ in how `groupCommentsByType` reads and matches the comment
text and in a block prologue that the second implementation prepends to
the rendered page.  Both are embedded. -/

/-- The four comment classes of `groupCommentsByType`. -/
inductive CommentType
  | q
  | a
  | arrow
  | other
deriving DecidableEq

/-- Semantics of the regex test built from a marker character `m`, an
optional ASCII colon and a required whitespace character (the first
implementation tests the trimmed text against patterns of this shape).
The regex alternatives collapse to: first character is `m`, then either
an optional colon followed by whitespace, or whitespace directly. -/
def matchMarkerWs (m : Char) (s : String) : Bool :=
  match s.data with
  | c0 :: c1 :: rest =>
    if c0 = m then
      if c1 = ':' then
        match rest with
        | c2 :: _ => isJsWs c2
        | [] => false
      else isJsWs c1
    else false
  | _ => false

/-- Semantics of the regex test of the second implementation: marker
character plus optional colon, nothing more required, anchored at the
start — so it only inspects the first character. -/
def matchMarker (m : Char) (s : String) : Bool :=
  match s.data with
  | c0 :: _ => c0 == m
  | [] => false

/-- Semantics of the replace that strips a leading marker character, an
optional colon and any following whitespace (used when rendering Q/A/arrow
blocks in both implementations). -/
def stripMarker (m : Char) (s : String) : String :=
  match s.data with
  | c0 :: rest =>
    if c0 = m then
      String.mk ((match rest with
        | ':' :: r => r
        | _ => rest).dropWhile isJsWs)
    else s
  | [] => s

/-- Model of the rich-text read of the second implementation:
the `plain_text` of the first rich-text item, or the empty string. -/
def firstRichText (c : Comment) : String :=
  match c.rich_text with
  | [] => ""
  | r :: _ => r.plain_text

/-- Classification chain of the first `groupCommentsByType`: match the
trimmed full comment text against marker-colon-whitespace patterns, in
the order Q, A, arrow, with a final catch-all. -/
def classifyComment1 (c : Comment) : CommentType :=
  let t := jsTrim (extractCommentText c)
  if matchMarkerWs 'Q' t then .q
  else if matchMarkerWs 'A' t then .a
  else if matchMarkerWs '→' t then .arrow
  else .other

/-- Classification chain of the second `groupCommentsByType`: match the
trimmed `plain_text` of the first rich-text item only, against
marker-optional-colon patterns with no whitespace requirement. -/
def classifyComment2 (c : Comment) : CommentType :=
  let t := jsTrim (firstRichText c)
  if matchMarker 'Q' t then .q
  else if matchMarker 'A' t then .a
  else if matchMarker '→' t then .arrow
  else .other

/-- The four buckets produced by `groupCommentsByType`; each bucket keeps
the push order of the forEach loop, i.e. the input order. -/
structure GroupedComments where
  q : List Comment
  a : List Comment
  arrow : List Comment
  other : List Comment
deriving DecidableEq

def groupCommentsByType1 (comments : List Comment) : GroupedComments :=
  { q := comments.filter (fun c => classifyComment1 c == .q),
    a := comments.filter (fun c => classifyComment1 c == .a),
    arrow := comments.filter (fun c => classifyComment1 c == .arrow),
    other := comments.filter (fun c => classifyComment1 c == .other) }

def groupCommentsByType2 (comments : List Comment) : GroupedComments :=
  { q := comments.filter (fun c => classifyComment2 c == .q),
    a := comments.filter (fun c => classifyComment2 c == .a),
    arrow := comments.filter (fun c => classifyComment2 c == .arrow),
    other := comments.filter (fun c => classifyComment2 c == .other) }

/-- Rendered Notion content blocks, as produced by `generatePageContent`. -/
inductive NBlock
  | heading2 (text : String)
  | paragraph (text : String)
  | paragraphLink (text url : String)
  | quoteBlock (text : String)
  | divider
deriving DecidableEq

/-- Model of `ContentProcessor.getCommentAuthor`. -/
def getCommentAuthor (c : Comment) : String :=
  match c.created_by_name with
  | some n => n
  | none =>
    match c.created_by_id with
    | some i => "用户" ++ lastChars 4 i
    | none => "未知用户"

/-- Abstraction of `formatTime` from utils.js, which renders the
timestamp through `Date.toLocaleString`; the exact locale text of the
timestamp is not load-bearing, so the model renders the numeric
timestamp directly. -/
def formatTime (t : Nat) : String := toString t

def qBlock1 (c : Comment) : NBlock :=
  .paragraph ("Q：" ++ stripMarker 'Q' (extractCommentText c))

def aBlock1 (c : Comment) : NBlock :=
  .paragraph ("A：" ++ stripMarker 'A' (extractCommentText c))

def arrowBlock1 (c : Comment) : NBlock :=
  .paragraph ("→：" ++ stripMarker '→' (extractCommentText c))

def qBlock2 (c : Comment) : NBlock :=
  .paragraph ("Q：" ++ stripMarker 'Q' (firstRichText c))

def aBlock2 (c : Comment) : NBlock :=
  .paragraph ("A：" ++ stripMarker 'A' (firstRichText c))

def arrowBlock2 (c : Comment) : NBlock :=
  .paragraph ("→：" ++ stripMarker '→' (firstRichText c))

/-- Uncategorized comments render with author and formatted timestamp
(identical in both implementations). -/
def otherBlock (c : Comment) : NBlock :=
  .paragraph ("【" ++ getCommentAuthor c ++ "】(时间: " ++ formatTime c.created_time
    ++ ") " ++ extractCommentText c)

/-- The quote block for the source block of the thread: emitted only when
the first comment carries `blockInfo`. -/
def sourceQuoteBlocks (d : Discussion) : List NBlock :=
  match d.comments with
  | [] => []
  | c :: _ =>
    match c.blockInfo with
    | some bi => [.quoteBlock bi.content]
    | none => []

/-- First implementation of `generatePageContent`: Reference header, Q
blocks, A blocks, source quote, arrow blocks, then uncategorized blocks.
The source guards each group with a non-emptiness check before its
forEach; the guards are kept. -/
def generatePageContent1 (d : Discussion) : List NBlock :=
  let g := groupCommentsByType1 d.comments
  [NBlock.heading2 "Reference"]
    ++ (if 0 < g.q.length then g.q.map qBlock1 else [])
    ++ (if 0 < g.a.length then g.a.map aBlock1 else [])
    ++ sourceQuoteBlocks d
    ++ (if 0 < g.arrow.length then g.arrow.map arrowBlock1 else [])
    ++ (if 0 < g.other.length then g.other.map otherBlock else [])

/-- The five blocks that the second implementation unshifts onto the
front of the children list, in their final front-to-back order (each
unshift prepends, so the last unshift ends up first). -/
def solutionPrologue : List NBlock :=
  [ .divider,
    .paragraph "💡 提示：点击上方链接查看所有相关解决方案，或使用过滤器筛选\"选择合适的主题\"的卡片。",
    .paragraphLink "🔗 卡片笔记库" "https://www.notion.so/18ce666ecf2c817b9808e2386cd473a0",
    .paragraph "📊 相关解决方案数据库：",
    .heading2 "Solution" ]

/-- Second implementation of `generatePageContent`: same body as the
first implementation but reading comment text through the first
rich-text item, and with the Solution prologue unshifted in front. -/
def generatePageContent2 (d : Discussion) : List NBlock :=
  let g := groupCommentsByType2 d.comments
  solutionPrologue
    ++ ([NBlock.heading2 "Reference"]
      ++ (if 0 < g.q.length then g.q.map qBlock2 else [])
      ++ (if 0 < g.a.length then g.a.map aBlock2 else [])
      ++ sourceQuoteBlocks d
      ++ (if 0 < g.arrow.length then g.arrow.map arrowBlock2 else [])
      ++ (if 0 < g.other.length then g.other.map otherBlock else []))

/-! ## Reference notes, target records, writer and the sync driver
(src/main.js, src/notion-client.js, src/database-writer.js) -/

/-- A row of the reference database.  The title properties mirror the
three property names probed by `extractNoteTitle` (Name, Title, 标题);
`automation` is the 自动化 select property; `blocks` holds the content
blocks of the page with their comments (the environment behind
`getPageBlocksWithComments`). -/
structure Note where
  id : String
  propName : Option String
  propTitle : Option String
  propZhTitle : Option String
  automation : String
  blocks : List Block
deriving DecidableEq

/-- Model of `CommentFetcher.extractNoteTitle`. -/
def extractNoteTitle (n : Note) : String :=
  match n.propName with
  | some t => t
  | none =>
    match n.propTitle with
    | some t => t
    | none =>
      match n.propZhTitle with
      | some t => t
      | none => "未知标题"

/-- Model of `NotionClient.getNoteUrl` in the fallback branch (no
configured reference database URL). -/
def getNoteUrl (pageId : String) : String :=
  "https://notion.so/" ++ stripDashes pageId

/-- Model of `NotionClient.getUnexecutedNotes`: the reference rows whose
自动化 select equals 未执行. -/
def getUnexecutedNotes (refStore : List Note) : List Note :=
  refStore.filter (fun n => n.automation == "未执行")

/-- Per-note part of `CommentFetcher.processMultipleNotes`: fetch and
group the discussions of the note and attach the source-note metadata. -/
def processNote (n : Note) : List Discussion :=
  (fetchAndGroupComments n.blocks).map
    (fun d => { d with sourceNote := some ⟨n.id, extractNoteTitle n, getNoteUrl n.id⟩ })

def processMultipleNotes (notes : List Note) : List Discussion :=
  notes.flatMap processNote

/-- A row of the target database: the DiscussionID rich-text property may
be absent. -/
structure TargetRecord where
  title : String
  discussionId : Option String
deriving DecidableEq

/-- The falsy filter applied to extracted DiscussionID values: JS
`filter(Boolean)` drops both missing values and empty strings. -/
def truthyString : Option String → Option String
  | some s => if s.isEmpty then none else some s
  | none => none

/-- Model of `NotionClient.getExistingDiscussionIds`: one query with
`page_size: 100` and no cursor following, so only the first 100 rows of
the target store are visible; extract their DiscussionID values and drop
falsy ones. -/
def getExistingDiscussionIds (targetStore : List TargetRecord) : List String :=
  ((targetStore.take 100).map (·.discussionId)).filterMap truthyString

/-- The page payload assembled by `ContentProcessor.processDiscussion`
(second, effective implementation): title property 卡片笔记, DiscussionID
property, the source-note back-reference and the rendered children. -/
structure PageData where
  title : String
  discussionId : String
  sourceNoteId : Option String
  children : List NBlock
deriving DecidableEq

def processDiscussion (d : Discussion) : PageData :=
  { title := d.title,
    discussionId := d.discussionId,
    sourceNoteId := d.sourceNote.map (·.id),
    children := generatePageContent2 d }

def processMultipleDiscussions (ds : List Discussion) : List PageData :=
  ds.map processDiscussion

/-- One entry of the batch result of `DatabaseWriter.writeMultipleDiscussions`. -/
structure WriteResult where
  success : Bool
  error : Option String
  title : String
  discussionId : String
  sourceNoteId : Option String
deriving DecidableEq

/-- Model of `DatabaseWriter.writeDiscussion`: `createPage` either
succeeds or throws; the catch converts the thrown error into a failure
entry carrying the title and discussion id of the page. -/
def writeDiscussion (ok : Bool) (p : PageData) : WriteResult :=
  if ok then
    { success := true, error := none, title := p.title,
      discussionId := p.discussionId, sourceNoteId := p.sourceNoteId }
  else
    { success := false, error := some "createPage failed", title := p.title,
      discussionId := p.discussionId, sourceNoteId := p.sourceNoteId }

structure BatchResult where
  success : Bool
  total : Nat
  successCount : Nat
  errorCount : Nat
  results : List WriteResult
deriving DecidableEq

/-- Model of `DatabaseWriter.writeMultipleDiscussions`: every page is
attempted in order (a failure is recorded and the loop continues), and
the counters tally the outcomes.  The write outcome of the i-th attempt
is the environment `writeOk i`. -/
def writeMultipleDiscussions (writeOk : Nat → Bool) (ps : List PageData) : BatchResult :=
  let results := ps.mapIdx (fun i p => writeDiscussion (writeOk i) p)
  { success := (results.filter (fun r => !r.success)).length == 0,
    total := ps.length,
    successCount := (results.filter (fun r => r.success)).length,
    errorCount := (results.filter (fun r => !r.success)).length,
    results := results }

/-- The target rows created by the successful writes of the batch, in
write order. -/
def createdRecords (writeOk : Nat → Bool) (ps : List PageData) : List TargetRecord :=
  (ps.mapIdx (fun i p =>
    if writeOk i then some (⟨p.title, some p.discussionId⟩ : TargetRecord) else none)).reduceOption

/-- The per-note success tally of `updateProcessedNotesStatus`
(`sourceNoteSuccessCount`). -/
def successCountFor (results : List WriteResult) (noteId : String) : Nat :=
  (results.filter (fun r => r.success && r.sourceNoteId == some noteId)).length

/-- Model of `NotionCommentSync.updateProcessedNotesStatus`: every pending
note with at least one successful write is flipped to 已执行; notes with
zero successful writes keep their status. -/
def updateProcessedNotesStatus (pending : List Note) (results : List WriteResult)
    (refStore : List Note) : List Note :=
  refStore.map (fun n =>
    if pending.any (fun m => m.id == n.id) && 0 < successCountFor results n.id then
      { n with automation := "已执行" }
    else n)

structure SyncResult where
  success : Bool
  processed : Nat
  written : Nat
  errors : Nat
deriving DecidableEq

/-- The store state a sync run reads and writes. -/
structure SyncState where
  refStore : List Note
  targetStore : List TargetRecord
deriving DecidableEq

structure SyncOutcome where
  result : SyncResult
  state : SyncState
deriving DecidableEq

/-- Step 4 of `NotionCommentSync.sync`: the valid discussions of all
pending notes. -/
def candidateDiscussions (st : SyncState) : List Discussion :=
  processMultipleNotes (getUnexecutedNotes st.refStore)

/-- Step 5 of `NotionCommentSync.sync`: the candidates whose discussion id
is not among the existing DiscussionID values of the target store. -/
def newDiscussionsOf (st : SyncState) : List Discussion :=
  (candidateDiscussions st).filter
    (fun d => !((getExistingDiscussionIds st.targetStore).contains d.discussionId))

/-- Model of `NotionCommentSync.sync`, steps 3 to 7: fetch the pending
notes, collect their valid discussions, deduplicate against the existing
DiscussionID values of the target store, process and write the remaining
discussions, and update the automation status of the pending notes.
Database validation and statistics reads do not affect the state, and the
follow-up workflows (steps 8 and 9) touch only the action store, so they
are modeled separately. -/
def sync (st : SyncState) (writeOk : Nat → Bool) : SyncOutcome :=
  if (getUnexecutedNotes st.refStore).length == 0 then
    ⟨⟨true, 0, 0, 0⟩, st⟩
  else if (candidateDiscussions st).length == 0 then
    ⟨⟨true, 0, 0, 0⟩, st⟩
  else if (newDiscussionsOf st).length == 0 then
    ⟨⟨true, (candidateDiscussions st).length, 0, 0⟩, st⟩
  else
    let processedDiscussions := processMultipleDiscussions (newDiscussionsOf st)
    let writeResults := writeMultipleDiscussions writeOk processedDiscussions
    ⟨⟨true, (candidateDiscussions st).length, writeResults.successCount, writeResults.errorCount⟩,
     ⟨updateProcessedNotesStatus (getUnexecutedNotes st.refStore) writeResults.results st.refStore,
      st.targetStore ++ createdRecords writeOk processedDiscussions⟩⟩

/-! ## Task guard and workflows
(src/workflow-manager.js, action-task-creator.js, email-notifier.js) -/

/-- Fueled digit expansion of a natural number (most significant first). -/
def natDigitsAux : Nat → Nat → List Char
  | 0, _ => []
  | fuel + 1, n =>
    if n < 10 then [Nat.digitChar n]
    else natDigitsAux fuel (n / 10) ++ [Nat.digitChar (n % 10)]

/-- Model of the `timeString` built by the task creators: the first 19
characters of the ISO timestamp with all separators removed, which is a
pure digit string; the current time is modeled as a `Nat`, rendered as
its decimal digits. -/
def natDigitsStr (n : Nat) : String := String.mk (natDigitsAux (n + 1) n)

/-- A row of the action database: the Task title property, the Status
property and the 创建时间 created-time property. -/
structure WorkItem where
  id : String
  task : String
  status : String
  createdTime : Nat
deriving DecidableEq

/-- The filter of `findUnfinishedReferenceProcessingTask`: Task title
contains the reference marker and Status differs from 完成. -/
def isUnfinishedRefTask (w : WorkItem) : Bool :=
  containsSubstr w.task "Reference处理需求" && (w.status != "完成")

/-- The filter of `findUnfinishedCardProcessingTask`. -/
def isUnfinishedCardTask (w : WorkItem) : Bool :=
  containsSubstr w.task "卡片处理需求" && (w.status != "完成")

/-- Sort direction of the guard queries: 创建时间 descending. -/
def byCreatedDesc (a b : WorkItem) : Bool := decide (b.createdTime ≤ a.createdTime)

/-- The guard query: filtered rows, most recent first, `page_size: 1`. -/
def queryUnfinished (unfinished : WorkItem → Bool) (store : List WorkItem) : List WorkItem :=
  (insertionSortBy byCreatedDesc (store.filter unfinished)).take 1

/-- The task summary object returned by the find helpers. -/
structure FoundTask where
  id : String
  title : String
  status : String
  url : String
  createdTime : String
deriving DecidableEq

def foundOf (w : WorkItem) : FoundTask :=
  { id := w.id, title := w.task, status := w.status,
    url := "https://www.notion.so/" ++ stripDashes w.id,
    createdTime := toString w.createdTime }

/-- Model of `ActionTaskCreator.findUnfinishedReferenceProcessingTask`:
a thrown query error is caught and converted into `none`, the same value
returned when no unfinished task exists. -/
def findUnfinishedReferenceProcessingTask (queryFails : Bool) (store : List WorkItem) :
    Option FoundTask :=
  if queryFails then none
  else (queryUnfinished isUnfinishedRefTask store).head?.map foundOf

/-- Model of `ActionTaskCreator.findUnfinishedCardProcessingTask`, with
the same catch-to-null error handling. -/
def findUnfinishedCardProcessingTask (queryFails : Bool) (store : List WorkItem) :
    Option FoundTask :=
  if queryFails then none
  else (queryUnfinished isUnfinishedCardTask store).head?.map foundOf

/-- A row of `findUnexecutedReferenceNotes` as consumed by the workflow. -/
structure NoteInfo where
  id : String
  title : String
  url : String
  createdTime : String
deriving DecidableEq

/-- A row of `CardStatusChecker.findPendingCards`. -/
structure PendingCard where
  title : String
  discussionId : String
  sourceNoteId : String
  pageUrl : Option String
deriving DecidableEq

/-- A notification payload handed to the email collaborator (the html
field of the source is a pure function of the body and is omitted). -/
structure EmailContent where
  subject : String
  body : String
deriving DecidableEq

/-- Abstraction of the locale rendering of the current time in the email
footers. -/
def localeTimeStr (now : Nat) : String := toString now

/-- One entry of the note list embedded in the warning email body. -/
def warnNoteItem (i : Nat) (n : NoteInfo) : String :=
  "\n### " ++ toString (i + 1) ++ ". " ++ n.title
    ++ "\n- **创建时间**: " ++ n.createdTime
    ++ "\n- **笔记链接**: " ++ n.url ++ "\n"

/-- One entry of the card list embedded in the card warning email body. -/
def warnCardItem (i : Nat) (c : PendingCard) : String :=
  "\n### " ++ toString (i + 1) ++ ". " ++ c.title
    ++ "\n- **讨论ID**: " ++ c.discussionId
    ++ "\n- **来源笔记**: " ++ c.sourceNoteId
    ++ "\n- **卡片链接**: "
    ++ (match truthyString c.pageUrl with
        | some u => u
        | none => "待生成") ++ "\n"

/-- Model of `EmailNotifier.generateReferenceWarningEmailContent`
(the trimmed template, with the interpolations spelled out). -/
def generateReferenceWarningEmailContent (notes : List NoteInfo) (t : FoundTask)
    (now : Nat) : EmailContent :=
  { subject := "⚠️ Reference处理任务未完成警告-" ++ natDigitsStr now,
    body :=
      "# ⚠️ Reference处理任务未完成警告\n\n## 🚨 重要提醒\n系统检测到有未完成的Reference处理任务，**不会创建新的任务**，请先完成现有任务。\n\n## 📋 未完成任务信息\n- **任务标题**: "
      ++ (t.title
      ++ ("\n- **当前状态**: "
      ++ (t.status
      ++ ("\n- **创建时间**: "
      ++ (t.createdTime
      ++ ("\n- **任务链接**: [点击查看任务]("
      ++ (t.url
      ++ (")\n\n## 📊 待处理笔记统计\n目前仍有 **"
      ++ (toString notes.length
      ++ ("** 个Reference笔记需要处理，但必须先完成现有任务。\n\n## 🔄 工作流程\n1. **完成现有任务**: 处理完所有Reference笔记\n2. **更新任务状态**: 将任务状态改为\"完成\"\n3. **系统自动检测**: 下次运行时会自动创建新任务\n\n## 📝 待处理笔记列表\n"
      ++ (String.intercalate "\n" ((notes.take 5).mapIdx warnNoteItem)
      ++ ("\n\n"
      ++ ((if 5 < notes.length then "\n... 还有 " ++ toString (notes.length - 5) ++ " 个笔记需要处理" else "")
      ++ ("\n\n## ⚠️ 处理要求\n这些笔记的\"自动化\"字段状态为\"未执行\"，需要：\n1. 阅读Reference笔记内容\n2. 处理笔记中的评论\n3. 将\"自动化\"字段更新为\"已执行\"\n4. 完成所有处理后，将任务状态改为\"完成\"\n\n## 📅 警告时间\n"
      ++ (localeTimeStr now
      ++ "\n\n---\n*此邮件由Notion评论同步系统自动生成*"))))))))))))))) }

/-- Model of `EmailNotifier.generateWarningEmailContent` (card variant). -/
def generateWarningEmailContent (cards : List PendingCard) (t : FoundTask)
    (now : Nat) : EmailContent :=
  { subject := "⚠️ 卡片处理任务未完成警告-" ++ natDigitsStr now,
    body :=
      "# ⚠️ 卡片处理任务未完成警告\n\n## 🚨 重要提醒\n系统检测到有未完成的卡片处理任务，**不会创建新的任务**，请先完成现有任务。\n\n## 📋 未完成任务信息\n- **任务标题**: "
      ++ (t.title
      ++ ("\n- **当前状态**: "
      ++ (t.status
      ++ ("\n- **创建时间**: "
      ++ (t.createdTime
      ++ ("\n- **任务链接**: [点击查看任务]("
      ++ (t.url
      ++ (")\n\n## 📊 待处理卡片统计\n目前仍有 **"
      ++ (toString cards.length
      ++ ("** 个卡片需要处理，但必须先完成现有任务。\n\n## 🔄 工作流程\n1. **完成现有任务**: 处理完所有待处理卡片\n2. **更新任务状态**: 将任务状态改为\"完成\"\n3. **系统自动检测**: 下次运行时会自动创建新任务\n\n## 📝 待处理卡片列表\n"
      ++ (String.intercalate "\n" ((cards.take 5).mapIdx warnCardItem)
      ++ ("\n\n"
      ++ ((if 5 < cards.length then "\n... 还有 " ++ toString (cards.length - 5) ++ " 个卡片需要处理" else "")
      ++ ("\n\n## ⚠️ 处理要求\n这些卡片目前缺少\"它在解决什么问题？\"字段的值，需要：\n1. 阅读对应的Reference库文件\n2. 理解卡片内容\n3. 填写\"它在解决什么问题？\"字段\n4. 建立卡片与具体问题的联系\n\n## 📅 警告时间\n"
      ++ (localeTimeStr now
      ++ "\n\n---\n*此邮件由Notion评论同步系统自动生成*"))))))))))))))) }

/-- Model of `EmailNotifier.generateReferenceEmailContent` (the normal
reminder sent after a reference task was created). -/
def generateReferenceEmailContent (notes : List NoteInfo) (link : String)
    (now : Nat) : EmailContent :=
  { subject := "Reference处理需求-" ++ natDigitsStr now,
    body :=
      "# Reference处理需求提醒\n\n## 📋 概述\n系统检测到 "
      ++ toString notes.length
      ++ " 个Reference笔记需要处理。\n\n## 🔗 行动任务\n请在行动库中查看任务：[Reference处理需求-"
      ++ natDigitsStr now
      ++ "]("
      ++ link
      ++ ")\n\n## 📝 待处理笔记列表\n"
      ++ String.intercalate "\n" (notes.mapIdx warnNoteItem)
      ++ "\n\n## ⚠️ 处理要求\n这些笔记的\"自动化\"字段状态为\"未执行\"，需要：\n1. 阅读Reference笔记内容\n2. 处理笔记中的评论\n3. 将\"自动化\"字段更新为\"已执行\"\n4. 完成所有处理后，将任务状态改为\"完成\"\n\n## 📅 生成时间\n"
      ++ localeTimeStr now
      ++ "\n\n---\n*此邮件由Notion评论同步系统自动生成*" }

/-- Model of `EmailNotifier.generateEmailContent` (the normal reminder
sent after a card task was created). -/
def generateEmailContent (cards : List PendingCard) (link : String)
    (now : Nat) : EmailContent :=
  { subject := "卡片处理需求-" ++ natDigitsStr now,
    body :=
      "# 卡片处理需求提醒\n\n## 📋 概述\n系统检测到 "
      ++ toString cards.length
      ++ " 个新生成的知识卡片需要人工处理。\n\n## 🔗 行动任务\n请在行动库中查看任务：[卡片处理需求-"
      ++ natDigitsStr now
      ++ "]("
      ++ link
      ++ ")\n\n## 📝 待处理卡片列表\n"
      ++ String.intercalate "\n" (cards.mapIdx warnCardItem)
      ++ "\n\n## ⚠️ 处理要求\n这些卡片目前缺少\"它在解决什么问题？\"字段的值，需要：\n1. 阅读对应的Reference库文件\n2. 理解卡片内容\n3. 填写\"它在解决什么问题？\"字段\n4. 建立卡片与具体问题的联系\n\n## 📅 生成时间\n"
      ++ localeTimeStr now
      ++ "\n\n---\n*此邮件由Notion评论同步系统自动生成*" }

/-- The work item created by `createReferenceProcessingTask`: Task title
built from the timestamp, Status 未开始.  The page id is assigned by the
store; a fixed fresh id stands in for it. -/
def newReferenceTask (now : Nat) : WorkItem :=
  { id := "created-reference-task", task := "Reference处理需求-" ++ natDigitsStr now,
    status := "未开始", createdTime := now }

/-- The work item created by `createCardProcessingTask`. -/
def newCardTask (now : Nat) : WorkItem :=
  { id := "created-card-task", task := "卡片处理需求-" ++ natDigitsStr now,
    status := "未开始", createdTime := now }

/-- Environment of one reference workflow run: the backlog returned by
`findUnexecutedReferenceNotes`, the action store contents, whether the
guard query throws, whether task creation fails, whether the email
collaborator reports success, and the current time. -/
structure RefWorkflowEnv where
  unexecutedNotes : List NoteInfo
  actionStore : List WorkItem
  guardQueryFails : Bool
  createFails : Bool
  emailOk : Bool
  now : Nat

/-- Environment of one card workflow run. -/
structure CardWorkflowEnv where
  pendingCards : List PendingCard
  actionStore : List WorkItem
  guardQueryFails : Bool
  createFails : Bool
  emailOk : Bool
  now : Nat

/-- The result object returned by the workflow (`backlogCount` is the
`unexecutedNotes` and `pendingCards` count field respectively; a missing
`unfinishedTask` field is `none`). -/
structure WorkflowResult where
  success : Bool
  backlogCount : Nat
  actionTaskCreated : Bool
  emailSent : Bool
  unfinishedTask : Option FoundTask
  errorMsg : Option String
deriving DecidableEq

/-- A workflow run together with its effects on the outside world: the
work items it created in the action store and the notification payloads
it handed to the email collaborator. -/
structure WorkflowOutcome where
  result : WorkflowResult
  createdTasks : List WorkItem
  emails : List EmailContent
deriving DecidableEq

/-- Model of `WorkflowManager.executeReferenceProcessingWorkflow`. -/
def executeReferenceProcessingWorkflow (env : RefWorkflowEnv) : WorkflowOutcome :=
  if env.unexecutedNotes.length == 0 then
    ⟨⟨true, 0, false, false, none, none⟩, [], []⟩
  else
    match findUnfinishedReferenceProcessingTask env.guardQueryFails env.actionStore with
    | some t =>
      ⟨⟨true, env.unexecutedNotes.length, false, env.emailOk, some t, none⟩, [],
       [generateReferenceWarningEmailContent env.unexecutedNotes t env.now]⟩
    | none =>
      if env.createFails then
        ⟨⟨false, env.unexecutedNotes.length, false, false, none, some "task creation failed"⟩,
         [], []⟩
      else
        let task := newReferenceTask env.now
        ⟨⟨true, env.unexecutedNotes.length, true, env.emailOk, none, none⟩, [task],
         [generateReferenceEmailContent env.unexecutedNotes
            ("https://www.notion.so/" ++ stripDashes task.id) env.now]⟩

/-- Model of `WorkflowManager.executeCardProcessingWorkflow`. -/
def executeCardProcessingWorkflow (env : CardWorkflowEnv) : WorkflowOutcome :=
  if env.pendingCards.length == 0 then
    ⟨⟨true, 0, false, false, none, none⟩, [], []⟩
  else
    match findUnfinishedCardProcessingTask env.guardQueryFails env.actionStore with
    | some t =>
      ⟨⟨true, env.pendingCards.length, false, env.emailOk, some t, none⟩, [],
       [generateWarningEmailContent env.pendingCards t env.now]⟩
    | none =>
      if env.createFails then
        ⟨⟨false, env.pendingCards.length, false, false, none, some "task creation failed"⟩,
         [], []⟩
      else
        let task := newCardTask env.now
        ⟨⟨true, env.pendingCards.length, true, env.emailOk, none, none⟩, [task],
         [generateEmailContent env.pendingCards
            ("https://www.notion.so/" ++ stripDashes task.id) env.now]⟩

/-- Environment of the workflow phase of one full pipeline run
(steps 8 and 9 of `NotionCommentSync.sync`). -/
structure WorkflowPipelineEnv where
  unexecutedNotes : List NoteInfo
  pendingCards : List PendingCard
  actionStore : List WorkItem
  refGuardQueryFails : Bool
  cardGuardQueryFails : Bool
  refCreateFails : Bool
  cardCreateFails : Bool
  emailOk : Bool
  now : Nat

/-- The successive visible states of the action store during the workflow
phase of a run: the initial store, the store after the reference
workflow, and — when the card workflow runs (reference workflow
succeeded with no unfinished reference task) — the store after the card
workflow. -/
def actionStoreTrace (env : WorkflowPipelineEnv) : List (List WorkItem) :=
  let s0 := env.actionStore
  let refOut := executeReferenceProcessingWorkflow
    ⟨env.unexecutedNotes, s0, env.refGuardQueryFails, env.refCreateFails, env.emailOk, env.now⟩
  let s1 := s0 ++ refOut.createdTasks
  if refOut.result.success && refOut.result.unfinishedTask.isNone then
    let cardOut := executeCardProcessingWorkflow
      ⟨env.pendingCards, s1, env.cardGuardQueryFails, env.cardCreateFails, env.emailOk, env.now⟩
    [s0, s1, s1 ++ cardOut.createdTasks]
  else
    [s0, s1]

/-- The guard invariant: per category, at most one work item with status
different from 完成 is visible. -/
def atMostOneUnfinished (s : List WorkItem) : Bool :=
  decide ((s.filter isUnfinishedRefTask).length ≤ 1)
    && decide ((s.filter isUnfinishedCardTask).length ≤ 1)

/-! ## Lemmas about the stable sort -/

theorem perm_orderedInsert (le : α → α → Bool) (x : α) (l : List α) :
    List.Perm (orderedInsert le x l) (x :: l) := by
  induction l with
  | nil => simp [orderedInsert]
  | cons y ys ih =>
    simp only [orderedInsert]
    split
    · exact List.Perm.refl _
    · exact (ih.cons y).trans (List.Perm.swap x y ys)

theorem perm_insertionSortBy (le : α → α → Bool) (l : List α) :
    List.Perm (insertionSortBy le l) l := by
  induction l with
  | nil => simp [insertionSortBy]
  | cons x xs ih =>
    simp only [insertionSortBy]
    exact (perm_orderedInsert le x _).trans (ih.cons x)

theorem pairwise_orderedInsert (le : α → α → Bool)
    (htot : ∀ a b, le a b = true ∨ le b a = true)
    (htrans : ∀ a b c, le a b = true → le b c = true → le a c = true)
    (x : α) (l : List α) (hl : l.Pairwise (fun a b => le a b = true)) :
    (orderedInsert le x l).Pairwise (fun a b => le a b = true) := by
  induction l with
  | nil => simp [orderedInsert]
  | cons y ys ih =>
    rcases List.pairwise_cons.mp hl with ⟨hy, hys⟩
    simp only [orderedInsert]
    split
    case isTrue h =>
      refine List.pairwise_cons.mpr ⟨?_, hl⟩
      intro z hz
      rcases List.mem_cons.mp hz with rfl | hz'
      · exact h
      · exact htrans x y z h (hy z hz')
    case isFalse h =>
      refine List.pairwise_cons.mpr ⟨?_, ih hys⟩
      intro z hz
      have hz2 : z = x ∨ z ∈ ys := by
        simpa using (perm_orderedInsert le x ys).mem_iff.mp hz
      rcases hz2 with rfl | hz'
      · rcases htot z y with h' | h'
        · exact absurd h' h
        · exact h'
      · exact hy z hz'

theorem pairwise_insertionSortBy (le : α → α → Bool)
    (htot : ∀ a b, le a b = true ∨ le b a = true)
    (htrans : ∀ a b c, le a b = true → le b c = true → le a c = true)
    (l : List α) :
    (insertionSortBy le l).Pairwise (fun a b => le a b = true) := by
  induction l with
  | nil => simp [insertionSortBy]
  | cons x xs ih =>
    simp only [insertionSortBy]
    exact pairwise_orderedInsert le htot htrans x _ ih

theorem byCreatedTime_total (a b : Comment) :
    byCreatedTime a b = true ∨ byCreatedTime b a = true := by
  simp only [byCreatedTime, decide_eq_true_eq]
  omega

theorem byCreatedTime_trans (a b c : Comment) (h1 : byCreatedTime a b = true)
    (h2 : byCreatedTime b c = true) : byCreatedTime a c = true := by
  simp only [byCreatedTime, decide_eq_true_eq] at h1 h2 ⊢
  omega

theorem sorted_sortCommentsByTime (l : List Comment) :
    (sortCommentsByTime l).Pairwise (fun a b => a.created_time ≤ b.created_time) := by
  refine (pairwise_insertionSortBy byCreatedTime byCreatedTime_total byCreatedTime_trans l).imp ?_
  intro a b h
  simpa [byCreatedTime] using h

theorem perm_sortCommentsByTime (l : List Comment) :
    List.Perm (sortCommentsByTime l) l :=
  perm_insertionSortBy byCreatedTime l

/-- Stability of `orderedInsert` on a sorted list, phrased through the
filter on one `created_time` value. -/
theorem filter_time_orderedInsert (t : Nat) (x : Comment) (l : List Comment)
    (hl : l.Pairwise (fun a b => byCreatedTime a b = true)) :
    (orderedInsert byCreatedTime x l).filter (fun c => c.created_time == t)
      = (if x.created_time == t
         then x :: l.filter (fun c => c.created_time == t)
         else l.filter (fun c => c.created_time == t)) := by
  induction l with
  | nil =>
    simp only [orderedInsert]
    cases hpx : x.created_time == t <;> simp [List.filter_cons, hpx]
  | cons y ys ih =>
    rcases List.pairwise_cons.mp hl with ⟨hy, hys⟩
    simp only [orderedInsert]
    split
    case isTrue hxy =>
      simp only [List.filter_cons]
    case isFalse hxy =>
      have hlt : y.created_time < x.created_time := by
        simp only [byCreatedTime, decide_eq_true_eq] at hxy
        omega
      simp only [List.filter_cons, ih hys]
      by_cases hpx : (x.created_time == t) = true
      · by_cases hpy : (y.created_time == t) = true
        · exfalso
          simp only [Nat.beq_eq_true_eq] at hpx hpy
          omega
        · simp [hpx, hpy]
      · by_cases hpy : (y.created_time == t) = true
        · simp [hpx, hpy]
        · simp [hpx, hpy]

/-- Stability of the modeled JS sort: the comments carrying any fixed
`created_time` value appear in the sorted list exactly in their original
order. -/
theorem filter_time_sortCommentsByTime (t : Nat) (l : List Comment) :
    (sortCommentsByTime l).filter (fun c => c.created_time == t)
      = l.filter (fun c => c.created_time == t) := by
  induction l with
  | nil => rfl
  | cons x xs ih =>
    have hp : (insertionSortBy byCreatedTime xs).Pairwise (fun a b => byCreatedTime a b = true) :=
      pairwise_insertionSortBy byCreatedTime byCreatedTime_total byCreatedTime_trans xs
    show (orderedInsert byCreatedTime x (insertionSortBy byCreatedTime xs)).filter _ = _
    rw [filter_time_orderedInsert t x _ hp, List.filter_cons]
    by_cases hpx : (x.created_time == t) = true
    · simp only [hpx, if_true]
      exact congrArg (x :: ·) ih
    · simp only [hpx, if_false, Bool.false_eq_true]
      exact ih

/-! ## Inversion of the thread construction -/

/-- Structure of a discussion produced by `filterValidDiscussions`: its
comments are the stably sorted group of its discussion id, and its title
is derived from the first marker-carrying comment of the sorted group. -/
theorem mem_filterValidDiscussions {comments : List Comment} {d : Discussion}
    (hd : d ∈ filterValidDiscussions comments) :
    d.comments = sortCommentsByTime (groupOf comments d.discussionId) ∧
    d.sourceNote = none ∧
    ∃ tc, (sortCommentsByTime (groupOf comments d.discussionId)).find? commentHasValidMarker
        = some tc ∧
      ∃ ps, alternativePrefixes.find?
          (fun p => jsStartsWith (jsTrim (extractCommentText tc)) p) = some ps ∧
        d.title = jsTrim (stripFoundMarker ps (jsTrim (extractCommentText tc))) := by
  unfold filterValidDiscussions at hd
  obtain ⟨k, hk, hfk⟩ := List.mem_filterMap.mp hd
  dsimp only at hfk
  split at hfk
  case isTrue hval =>
    split at hfk
    case h_1 tc hfind =>
      split at hfk
      case h_1 ps hfindp =>
        obtain rfl := Option.some.inj hfk
        exact ⟨rfl, rfl, tc, hfind, ps, hfindp, rfl⟩
      case h_2 => exact absurd hfk (by simp)
    case h_2 => exact absurd hfk (by simp)
  case isFalse hval => exact absurd hfk (by simp)

/-- Auxiliary: `find?` over a list sorted by `created_time` returns an
element of minimal `created_time` among those satisfying the predicate. -/
theorem find?_time_min {l : List Comment} {q : Comment → Bool} {c : Comment}
    (hl : l.Pairwise (fun a b => a.created_time ≤ b.created_time))
    (hfind : l.find? q = some c) :
    ∀ x ∈ l, q x = true → c.created_time ≤ x.created_time := by
  induction l with
  | nil => simp at hfind
  | cons y ys ih =>
    rcases List.pairwise_cons.mp hl with ⟨hy, hys⟩
    by_cases hq : q y = true
    · rw [List.find?_cons_of_pos _ hq] at hfind
      obtain rfl := Option.some.inj hfind
      intro x hx _
      rcases List.mem_cons.mp hx with rfl | hx'
      · exact Nat.le_refl _
      · exact hy x hx'
    · rw [List.find?_cons_of_neg _ (by simpa using hq)] at hfind
      intro x hx hqx
      rcases List.mem_cons.mp hx with rfl | hx'
      · exact absurd hqx hq
      · exact ih hys hfind x hx' hqx

/-- C4: for every Thread emitted by the comment fetcher, the members
sequence is sorted by `createdAt` ascending; it is a permutation of the
fetched discussion group, and comments sharing a `createdAt` value keep
their original fetch order (the sort is stable). -/
theorem c4_thread_members_sorted (comments : List Comment) (d : Discussion)
    (hd : d ∈ filterValidDiscussions comments) :
    d.comments.Pairwise (fun a b => a.created_time ≤ b.created_time) ∧
    List.Perm d.comments (groupOf comments d.discussionId) ∧
    ∀ t : Nat, d.comments.filter (fun c => c.created_time == t)
      = (groupOf comments d.discussionId).filter (fun c => c.created_time == t) := by
  obtain ⟨hc, -, -⟩ := mem_filterValidDiscussions hd
  rw [hc]
  exact ⟨sorted_sortCommentsByTime _, perm_sortCommentsByTime _,
    fun t => filter_time_sortCommentsByTime t _⟩

/-- C4 witness: the sortedness statement evaluated on a concrete
two-comment discussion. -/
def exCommentQ : Comment := ⟨"d1", [⟨"Q: 什么是缓存?"⟩], 1, some "alice", none, none⟩

def exCommentA : Comment := ⟨"d1", [⟨"A: 一种加速访问的临时存储"⟩], 2, none, some "user-12345678", none⟩

def exCommentArrow : Comment := ⟨"d1", [⟨"→: 补充示例"⟩], 3, none, none, none⟩

def exDiscussion : Discussion :=
  { discussionId := "d1", title := "什么是缓存?",
    comments := [exCommentQ, exCommentA, exCommentArrow], sourceNote := none }

theorem c4_witness :
    exDiscussion.comments.Pairwise (fun a b => a.created_time ≤ b.created_time) ∧
    List.Perm exDiscussion.comments
      (groupOf [exCommentA, exCommentQ, exCommentArrow] exDiscussion.discussionId) ∧
    ∀ t : Nat, exDiscussion.comments.filter (fun c => c.created_time == t)
      = (groupOf [exCommentA, exCommentQ, exCommentArrow]
          exDiscussion.discussionId).filter (fun c => c.created_time == t) :=
  c4_thread_members_sorted [exCommentA, exCommentQ, exCommentArrow] exDiscussion (by decide)

/-- C5: for every Thread, the title is derived from a marker-carrying
member that is chronologically minimal among all marker-carrying members,
by stripping the matched marker string and the whitespace following it. -/
theorem c5_title_first_chronological (comments : List Comment) (d : Discussion)
    (hd : d ∈ filterValidDiscussions comments) :
    ∃ c ∈ d.comments, commentHasValidMarker c = true ∧
      (∀ x ∈ d.comments, commentHasValidMarker x = true →
        c.created_time ≤ x.created_time) ∧
      ∃ ps ∈ alternativePrefixes,
        jsStartsWith (jsTrim (extractCommentText c)) ps = true ∧
        d.title = jsTrim (stripFoundMarker ps (jsTrim (extractCommentText c))) := by
  obtain ⟨hc, -, tc, hfind, ps, hfindp, htitle⟩ := mem_filterValidDiscussions hd
  refine ⟨tc, ?_, List.find?_some hfind, ?_, ps, ?_, List.find?_some hfindp, htitle⟩
  · rw [hc]
    exact List.mem_of_find?_eq_some hfind
  · rw [hc]
    exact find?_time_min (sorted_sortCommentsByTime _) hfind
  · exact List.mem_of_find?_eq_some hfindp

/-! ## Classification (C6) -/

/-- The decision function of the first classification regexes, as a
function of the first three characters of the examined text. -/
def markerWsState (m : Char) : List Char → Bool
  | c0 :: c1 :: rest =>
    if c0 = m then
      if c1 = ':' then
        match rest with
        | c2 :: _ => isJsWs c2
        | [] => false
      else isJsWs c1
    else false
  | _ => false

theorem matchMarkerWs_eq (m : Char) (s : String) :
    matchMarkerWs m s = markerWsState m (s.data.take 3) := by
  obtain ⟨l⟩ := s
  rcases l with _ | ⟨c0, _ | ⟨c1, _ | ⟨c2, rest⟩⟩⟩ <;> rfl

/-- The decision function of the second classification regexes, as a
function of the first character of the examined text. -/
def markerState (m : Char) : List Char → Bool
  | c0 :: _ => c0 == m
  | [] => false

theorem matchMarker_eq (m : Char) (s : String) :
    matchMarker m s = markerState m (s.data.take 1) := by
  obtain ⟨l⟩ := s
  rcases l with _ | ⟨c0, rest⟩ <;> rfl

theorem classifyComment1_congr (c1 c2 : Comment)
    (h : (jsTrim (extractCommentText c1)).data.take 3
        = (jsTrim (extractCommentText c2)).data.take 3) :
    classifyComment1 c1 = classifyComment1 c2 := by
  simp only [classifyComment1, matchMarkerWs_eq, h]

theorem classifyComment2_congr (c1 c2 : Comment)
    (h : (jsTrim (firstRichText c1)).data.take 1
        = (jsTrim (firstRichText c2)).data.take 1) :
    classifyComment2 c1 = classifyComment2 c2 := by
  simp only [classifyComment2, matchMarker_eq, h]

/-- Auxiliary: an if-else classification chain puts every comment in
exactly one bucket, so the bucket sizes sum to the input size. -/
theorem classify_partition (f : Comment → CommentType) (l : List Comment) :
    (l.filter (fun c => f c == .q)).length + (l.filter (fun c => f c == .a)).length
      + (l.filter (fun c => f c == .arrow)).length
      + (l.filter (fun c => f c == .other)).length = l.length := by
  induction l with
  | nil => rfl
  | cons c cs ih =>
    simp only [List.filter_cons, List.length_cons]
    cases h : f c <;> simp [h] <;> omega

/-- C6 (amended): every comment receives exactly one of the four
classifications in both implementations; the first implementation is
determined solely by the first three characters of the trimmed full
comment text, while the second implementation is determined solely by
the start of the trimmed first rich-text fragment (not of the full
text). -/
theorem c6_classification_totality :
    (∀ l : List Comment,
      ((groupCommentsByType1 l).q.length + (groupCommentsByType1 l).a.length
        + (groupCommentsByType1 l).arrow.length
        + (groupCommentsByType1 l).other.length = l.length) ∧
      ((groupCommentsByType2 l).q.length + (groupCommentsByType2 l).a.length
        + (groupCommentsByType2 l).arrow.length
        + (groupCommentsByType2 l).other.length = l.length)) ∧
    (∀ c1 c2 : Comment,
      (jsTrim (extractCommentText c1)).data.take 3
          = (jsTrim (extractCommentText c2)).data.take 3 →
        classifyComment1 c1 = classifyComment1 c2) ∧
    (∀ c1 c2 : Comment,
      (jsTrim (firstRichText c1)).data.take 1
          = (jsTrim (firstRichText c2)).data.take 1 →
        classifyComment2 c1 = classifyComment2 c2) :=
  ⟨fun l => ⟨classify_partition classifyComment1 l, classify_partition classifyComment2 l⟩,
   classifyComment1_congr, classifyComment2_congr⟩

/-- C6 counterexample: two comments with identical (trimmed) full text
are classified differently by the second implementation, because it
reads only the first rich-text fragment.  This refutes the frozen claim
that the classification is determined solely by the start of the
trimmed text of the comment. -/
def c6MultiFragment : Comment := ⟨"dX", [⟨""⟩, ⟨"Q: x"⟩], 0, none, none, none⟩

def c6SingleFragment : Comment := ⟨"dX", [⟨"Q: x"⟩], 0, none, none, none⟩

theorem c6_counterexample :
    extractCommentText c6MultiFragment = extractCommentText c6SingleFragment ∧
    classifyComment2 c6MultiFragment = CommentType.other ∧
    classifyComment2 c6SingleFragment = CommentType.q := by decide

def c6wHello : Comment := ⟨"dW", [⟨"Q: hello"⟩], 0, none, none, none⟩

def c6wHi : Comment := ⟨"dW", [⟨"Q: hi"⟩], 1, none, none, none⟩

theorem c6_witness :
    ((groupCommentsByType1 [c6wHello, c6wHi]).q.length
        + (groupCommentsByType1 [c6wHello, c6wHi]).a.length
        + (groupCommentsByType1 [c6wHello, c6wHi]).arrow.length
        + (groupCommentsByType1 [c6wHello, c6wHi]).other.length
        = ([c6wHello, c6wHi] : List Comment).length) ∧
    classifyComment1 c6wHello = classifyComment1 c6wHi :=
  ⟨(c6_classification_totality.1 [c6wHello, c6wHi]).1,
   c6_classification_totality.2.1 c6wHello c6wHi (by decide)⟩

/-! ## Rendering order (C7) -/

theorem map_guard (f : Comment → NBlock) (l : List Comment) :
    (if 0 < l.length then l.map f else []) = l.map f := by
  cases l <;> simp

/-- C7 (amended): the first implementation renders, in order, exactly one
section header, the Q blocks, the A blocks, exactly one quote of the
source block text, the arrow blocks and the uncategorized blocks, with
nothing before the header; the second implementation renders the same
sequence but prepends the five Solution-prologue blocks in front of the
header. -/
theorem c7_render_order (d : Discussion) (c0 : Comment) (rest : List Comment)
    (bi : BlockInfo) (hc : d.comments = c0 :: rest) (hbi : c0.blockInfo = some bi) :
    generatePageContent1 d
      = NBlock.heading2 "Reference"
          :: ((groupCommentsByType1 d.comments).q.map qBlock1
            ++ (groupCommentsByType1 d.comments).a.map aBlock1
            ++ [NBlock.quoteBlock bi.content]
            ++ (groupCommentsByType1 d.comments).arrow.map arrowBlock1
            ++ (groupCommentsByType1 d.comments).other.map otherBlock) ∧
    generatePageContent2 d
      = solutionPrologue
          ++ (NBlock.heading2 "Reference"
            :: ((groupCommentsByType2 d.comments).q.map qBlock2
              ++ (groupCommentsByType2 d.comments).a.map aBlock2
              ++ [NBlock.quoteBlock bi.content]
              ++ (groupCommentsByType2 d.comments).arrow.map arrowBlock2
              ++ (groupCommentsByType2 d.comments).other.map otherBlock)) := by
  have hq : sourceQuoteBlocks d = [NBlock.quoteBlock bi.content] := by
    simp [sourceQuoteBlocks, hc, hbi]
  constructor <;> simp [generatePageContent1, generatePageContent2, map_guard, hq]

def exBlockInfo : BlockInfo := ⟨"b1", "paragraph", "source text"⟩

def exCommentQB : Comment :=
  ⟨"d1", [⟨"Q: 什么是缓存?"⟩], 1, some "alice", none, some exBlockInfo⟩

def exDiscussionB : Discussion := ⟨"d1", "什么是缓存?", [exCommentQB], none⟩

/-- C7 counterexample: in the second implementation the first rendered
block is the prologue divider, not the section header, so blocks do
precede the section header. -/
theorem c7_counterexample :
    (generatePageContent2 exDiscussionB).head? = some NBlock.divider ∧
    (generatePageContent2 exDiscussionB).head? ≠ some (NBlock.heading2 "Reference") := by
  decide

theorem c7_witness :
    generatePageContent1 exDiscussionB
      = NBlock.heading2 "Reference"
          :: ((groupCommentsByType1 exDiscussionB.comments).q.map qBlock1
            ++ (groupCommentsByType1 exDiscussionB.comments).a.map aBlock1
            ++ [NBlock.quoteBlock exBlockInfo.content]
            ++ (groupCommentsByType1 exDiscussionB.comments).arrow.map arrowBlock1
            ++ (groupCommentsByType1 exDiscussionB.comments).other.map otherBlock) ∧
    generatePageContent2 exDiscussionB
      = solutionPrologue
          ++ (NBlock.heading2 "Reference"
            :: ((groupCommentsByType2 exDiscussionB.comments).q.map qBlock2
              ++ (groupCommentsByType2 exDiscussionB.comments).a.map aBlock2
              ++ [NBlock.quoteBlock exBlockInfo.content]
              ++ (groupCommentsByType2 exDiscussionB.comments).arrow.map arrowBlock2
              ++ (groupCommentsByType2 exDiscussionB.comments).other.map otherBlock)) :=
  c7_render_order exDiscussionB exCommentQB [] exBlockInfo rfl rfl

theorem c5_witness :
    ∃ c ∈ exDiscussion.comments, commentHasValidMarker c = true ∧
      (∀ x ∈ exDiscussion.comments, commentHasValidMarker x = true →
        c.created_time ≤ x.created_time) ∧
      ∃ ps ∈ alternativePrefixes,
        jsStartsWith (jsTrim (extractCommentText c)) ps = true ∧
        exDiscussion.title = jsTrim (stripFoundMarker ps (jsTrim (extractCommentText c))) :=
  c5_title_first_chronological [exCommentA, exCommentQ, exCommentArrow] exDiscussion (by decide)

/-! ## Batch writes and status updates (C8) -/

theorem filter_bool_partition (p : α → Bool) (l : List α) :
    (l.filter p).length + (l.filter (fun a => !(p a))).length = l.length := by
  induction l with
  | nil => rfl
  | cons x xs ih =>
    simp only [List.filter_cons]
    cases h : p x <;> simp [h] <;> omega

/-- C8: a single failed write is recorded in the batch result (success
false, error present) without disturbing the other entries — every page
of the batch gets exactly one result entry, in order — and a source note
is flipped away from its previous automation status only when at least
one successful write carries its note id, while a note with zero
successful writes is left untouched. -/
theorem c8_write_failure_isolation :
    (∀ (writeOk : Nat → Bool) (ps : List PageData),
      (writeMultipleDiscussions writeOk ps).results.length = ps.length ∧
      (writeMultipleDiscussions writeOk ps).successCount
        + (writeMultipleDiscussions writeOk ps).errorCount = ps.length ∧
      ∀ i, (h : i < ps.length) →
        ∃ hr : i < (writeMultipleDiscussions writeOk ps).results.length,
          ((writeMultipleDiscussions writeOk ps).results[i]).discussionId
              = (ps[i]).discussionId ∧
          ((writeMultipleDiscussions writeOk ps).results[i]).success = writeOk i ∧
          (writeOk i = false →
            ((writeMultipleDiscussions writeOk ps).results[i]).error.isSome = true)) ∧
    (∀ (pending : List Note) (results : List WriteResult) (refStore : List Note)
        (i : Nat), (h : i < refStore.length) →
      ∃ hu : i < (updateProcessedNotesStatus pending results refStore).length,
        (((updateProcessedNotesStatus pending results refStore)[i]).automation
            ≠ ((refStore[i]).automation) →
          0 < successCountFor results ((refStore[i]).id)) ∧
        (successCountFor results ((refStore[i]).id) = 0 →
          (updateProcessedNotesStatus pending results refStore)[i] = refStore[i])) := by
  constructor
  · intro writeOk ps
    have hlen : (writeMultipleDiscussions writeOk ps).results.length = ps.length := by
      simp [writeMultipleDiscussions]
    refine ⟨hlen, ?_, ?_⟩
    · show ((ps.mapIdx fun i p => writeDiscussion (writeOk i) p).filter (fun r => r.success)).length
          + ((ps.mapIdx fun i p => writeDiscussion (writeOk i) p).filter (fun r => !r.success)).length
          = ps.length
      rw [filter_bool_partition]
      simp
    · intro i h
      refine ⟨by omega, ?_⟩
      have hb : i < (writeMultipleDiscussions writeOk ps).results.length := by omega
      have hb2 : i < (ps.mapIdx fun j p => writeDiscussion (writeOk j) p).length := by
        simpa using h
      have hget : (writeMultipleDiscussions writeOk ps).results[i]
          = writeDiscussion (writeOk i) (ps[i]) := by
        show (ps.mapIdx fun j p => writeDiscussion (writeOk j) p)[i]
            = writeDiscussion (writeOk i) (ps[i])
        simp [List.getElem_mapIdx]
      rw [hget]
      cases hok : writeOk i <;> simp [writeDiscussion, hok]
  · intro pending results refStore i h
    have hu : i < (updateProcessedNotesStatus pending results refStore).length := by
      simp [updateProcessedNotesStatus]
      omega
    have hb3 : i < (refStore.map (fun n =>
        if pending.any (fun m => m.id == n.id) && 0 < successCountFor results n.id then
          { n with automation := "已执行" }
        else n)).length := by
      simpa using h
    have hget : (updateProcessedNotesStatus pending results refStore)[i]
        = (if pending.any (fun m => m.id == (refStore[i]).id)
              && decide (0 < successCountFor results ((refStore[i]).id))
           then { refStore[i] with automation := "已执行" }
           else refStore[i]) := by
      show (refStore.map (fun n =>
        if pending.any (fun m => m.id == n.id) && 0 < successCountFor results n.id then
          { n with automation := "已执行" }
        else n))[i] = _
      simp [List.getElem_map]
    refine ⟨hu, ?_, ?_⟩
    · intro hne
      by_contra h0
      have hz : successCountFor results ((refStore[i]).id) = 0 := by omega
      rw [hget] at hne
      simp [hz] at hne
    · intro hz
      rw [hget]
      simp [hz]

def c8Page1 : PageData := ⟨"题一", "dw1", some "n1", []⟩

def c8Page2 : PageData := ⟨"题二", "dw2", some "n2", []⟩

def c8Results : List WriteResult :=
  (writeMultipleDiscussions (fun i => i == 0) [c8Page1, c8Page2]).results

def c8Note : Note := ⟨"n2", none, none, none, "未执行", []⟩

theorem c8_witness :
    (∃ hr : 1 < (writeMultipleDiscussions (fun i => i == 0) [c8Page1, c8Page2]).results.length,
      ((writeMultipleDiscussions (fun i => i == 0) [c8Page1, c8Page2]).results[1]).discussionId
          = (([c8Page1, c8Page2])[1]).discussionId ∧
      ((writeMultipleDiscussions (fun i => i == 0) [c8Page1, c8Page2]).results[1]).success
          = ((1 : Nat) == 0) ∧
      (((1 : Nat) == 0) = false →
        ((writeMultipleDiscussions (fun i => i == 0) [c8Page1, c8Page2]).results[1]).error.isSome
          = true)) ∧
    (∃ hu : 0 < (updateProcessedNotesStatus [c8Note] c8Results [c8Note]).length,
      (((updateProcessedNotesStatus [c8Note] c8Results [c8Note])[0]).automation
          ≠ ((([c8Note])[0]).automation) →
        0 < successCountFor c8Results ((([c8Note])[0]).id)) ∧
      (successCountFor c8Results ((([c8Note])[0]).id) = 0 →
        (updateProcessedNotesStatus [c8Note] c8Results [c8Note])[0] = ([c8Note])[0])) :=
  ⟨(c8_write_failure_isolation.1 (fun i => i == 0) [c8Page1, c8Page2]).2.2 1 (by decide),
   c8_write_failure_isolation.2 [c8Note] c8Results [c8Note] 0 (by decide)⟩

/-! ## The deduplication query sees only the first page (C9) -/

/-- C9: `getExistingDiscussionIds` issues a single page_size-100 query
and never follows a cursor: its result has at most 100 entries, is fully
determined by the first 100 rows of the target store, and every returned
id comes from one of those first 100 rows. -/
theorem c9_first_page_only (targetStore : List TargetRecord) :
    (getExistingDiscussionIds targetStore).length ≤ 100 ∧
    getExistingDiscussionIds targetStore
      = getExistingDiscussionIds (targetStore.take 100) ∧
    ∀ id ∈ getExistingDiscussionIds targetStore,
      ∃ r ∈ targetStore.take 100, r.discussionId = some id := by
  refine ⟨?_, ?_, ?_⟩
  · have h1 : (getExistingDiscussionIds targetStore).length
        ≤ ((targetStore.take 100).map (·.discussionId)).length :=
      List.length_filterMap_le _ _
    simp only [List.length_map, List.length_take] at h1
    omega
  · simp [getExistingDiscussionIds, List.take_take]
  · intro id hid
    obtain ⟨o, ho, hto⟩ := List.mem_filterMap.mp hid
    obtain ⟨r, hr, hro⟩ := List.mem_map.mp ho
    refine ⟨r, hr, ?_⟩
    cases o with
    | none => simp [truthyString] at hto
    | some s =>
      rw [hro]
      simp only [truthyString] at hto
      split at hto
      · exact absurd hto (by simp)
      · exact congrArg some (Option.some.inj hto)

def c9Record1 : TargetRecord := ⟨"卡一", some "w9"⟩

def c9Record2 : TargetRecord := ⟨"卡二", none⟩

theorem c9_witness :
    ∃ r ∈ ([c9Record1, c9Record2] : List TargetRecord).take 100,
      r.discussionId = some "w9" :=
  (c9_first_page_only [c9Record1, c9Record2]).2.2 "w9" (by decide)

/-! ## Guard query behavior (C10, C3) -/

theorem containsSubstr_append_left (pre s pat : String)
    (h : containsSubstr s pat = true) : containsSubstr (pre ++ s) pat = true := by
  simp only [containsSubstr, decide_eq_true_eq] at h ⊢
  obtain ⟨u, v, huv⟩ := h
  refine ⟨pre.data ++ u, v, ?_⟩
  rw [String.data_append, ← huv]
  simp [List.append_assoc]

theorem containsSubstr_append_right (s post pat : String)
    (h : containsSubstr s pat = true) : containsSubstr (s ++ post) pat = true := by
  simp only [containsSubstr, decide_eq_true_eq] at h ⊢
  obtain ⟨u, v, huv⟩ := h
  refine ⟨u, v ++ post.data, ?_⟩
  rw [String.data_append, ← huv]
  simp [List.append_assoc]

theorem containsSubstr_self_append (pat post : String) :
    containsSubstr (pat ++ post) pat = true := by
  simp only [containsSubstr, decide_eq_true_eq]
  exact ⟨[], post.data, by simp [String.data_append]⟩

theorem containsSubstr_append_self (pre pat : String) :
    containsSubstr (pre ++ pat) pat = true := by
  simp only [containsSubstr, decide_eq_true_eq]
  exact ⟨pre.data, [], by simp [String.data_append]⟩

theorem queryUnfinished_some (pred : WorkItem → Bool) (store : List WorkItem)
    (h : store.filter pred ≠ []) :
    ∃ w, (queryUnfinished pred store).head? = some w := by
  unfold queryUnfinished
  have hlen : 0 < (insertionSortBy byCreatedDesc (store.filter pred)).length := by
    rw [(perm_insertionSortBy _ _).length_eq]
    exact List.length_pos.mpr h
  cases hs : insertionSortBy byCreatedDesc (store.filter pred) with
  | nil => rw [hs] at hlen; simp at hlen
  | cons w ws => exact ⟨w, by simp [hs]⟩

/-- C10: a thrown guard query error is swallowed and turned into `none`,
the same answer as when no unresolved task exists, so the workflow under
a failed guard query behaves exactly as with an empty action store and a
successful query — in particular it proceeds to create a new work item. -/
theorem c10_guard_error_swallowed :
    (∀ store : List WorkItem,
      findUnfinishedReferenceProcessingTask true store = none ∧
      findUnfinishedCardProcessingTask true store = none) ∧
    (∀ env : RefWorkflowEnv, env.guardQueryFails = true →
      executeReferenceProcessingWorkflow env
        = executeReferenceProcessingWorkflow
            { env with actionStore := [], guardQueryFails := false }) ∧
    (∀ env : CardWorkflowEnv, env.guardQueryFails = true →
      executeCardProcessingWorkflow env
        = executeCardProcessingWorkflow
            { env with actionStore := [], guardQueryFails := false }) ∧
    (∀ env : RefWorkflowEnv, env.guardQueryFails = true →
      env.unexecutedNotes.length ≠ 0 → env.createFails = false →
      (executeReferenceProcessingWorkflow env).result.actionTaskCreated = true ∧
      (executeReferenceProcessingWorkflow env).createdTasks = [newReferenceTask env.now]) := by
  refine ⟨?_, ?_, ?_, ?_⟩
  · intro store
    constructor <;> simp [findUnfinishedReferenceProcessingTask, findUnfinishedCardProcessingTask]
  · intro env h
    simp [executeReferenceProcessingWorkflow, findUnfinishedReferenceProcessingTask, h,
      queryUnfinished, insertionSortBy]
  · intro env h
    simp [executeCardProcessingWorkflow, findUnfinishedCardProcessingTask, h,
      queryUnfinished, insertionSortBy]
  · intro env h1 h2 h3
    have hb : (env.unexecutedNotes.length == 0) = false := by simpa using h2
    constructor <;>
      simp [executeReferenceProcessingWorkflow, findUnfinishedReferenceProcessingTask, h1, h3, hb]

def c10Unfinished : WorkItem := ⟨"t0", "Reference处理需求-11", "进行中", 3⟩

def c10Env : RefWorkflowEnv :=
  ⟨[⟨"n1", "笔记一", "https://notion.so/n1", "2025"⟩], [c10Unfinished], true, false, true, 7⟩

theorem c10_witness :
    (findUnfinishedReferenceProcessingTask true [c10Unfinished] = none ∧
      findUnfinishedCardProcessingTask true [c10Unfinished] = none) ∧
    ((executeReferenceProcessingWorkflow c10Env).result.actionTaskCreated = true ∧
      (executeReferenceProcessingWorkflow c10Env).createdTasks = [newReferenceTask c10Env.now]) :=
  ⟨c10_guard_error_swallowed.1 [c10Unfinished],
   c10_guard_error_swallowed.2.2.2 c10Env rfl (by decide) rfl⟩

/-- C3: whenever the guard query runs without error and at least one
unresolved work item of the category exists, the workflow creates no new
work item, hands the email collaborator the warning payload — whose body
cites the still-open task title and the backlog size — and returns a
successful result with `actionTaskCreated = false`. -/
theorem c3_unresolved_task_guard :
    (∀ env : RefWorkflowEnv,
      env.guardQueryFails = false →
      env.unexecutedNotes.length ≠ 0 →
      env.actionStore.filter isUnfinishedRefTask ≠ [] →
      ∃ t : FoundTask,
        (executeReferenceProcessingWorkflow env).result
            = ⟨true, env.unexecutedNotes.length, false, env.emailOk, some t, none⟩ ∧
        (executeReferenceProcessingWorkflow env).createdTasks = [] ∧
        (executeReferenceProcessingWorkflow env).emails
            = [generateReferenceWarningEmailContent env.unexecutedNotes t env.now] ∧
        containsSubstr
            (generateReferenceWarningEmailContent env.unexecutedNotes t env.now).body
            t.title = true ∧
        containsSubstr
            (generateReferenceWarningEmailContent env.unexecutedNotes t env.now).body
            (toString env.unexecutedNotes.length) = true) ∧
    (∀ env : CardWorkflowEnv,
      env.guardQueryFails = false →
      env.pendingCards.length ≠ 0 →
      env.actionStore.filter isUnfinishedCardTask ≠ [] →
      ∃ t : FoundTask,
        (executeCardProcessingWorkflow env).result
            = ⟨true, env.pendingCards.length, false, env.emailOk, some t, none⟩ ∧
        (executeCardProcessingWorkflow env).createdTasks = [] ∧
        (executeCardProcessingWorkflow env).emails
            = [generateWarningEmailContent env.pendingCards t env.now] ∧
        containsSubstr
            (generateWarningEmailContent env.pendingCards t env.now).body t.title = true ∧
        containsSubstr
            (generateWarningEmailContent env.pendingCards t env.now).body
            (toString env.pendingCards.length) = true) := by
  constructor
  · intro env h1 h2 h3
    obtain ⟨w, hw⟩ := queryUnfinished_some isUnfinishedRefTask env.actionStore h3
    have hb : (env.unexecutedNotes.length == 0) = false := by simpa using h2
    have hfind : findUnfinishedReferenceProcessingTask env.guardQueryFails env.actionStore
        = some (foundOf w) := by
      rw [h1]
      simp [findUnfinishedReferenceProcessingTask, hw]
    refine ⟨foundOf w, ?_, ?_, ?_, ?_, ?_⟩
    · simp [executeReferenceProcessingWorkflow, hb, hfind]
    · simp [executeReferenceProcessingWorkflow, hb, hfind]
    · simp [executeReferenceProcessingWorkflow, hb, hfind]
    · exact containsSubstr_append_left _ _ _ (containsSubstr_self_append _ _)
    · exact containsSubstr_append_left _ _ _ (containsSubstr_append_left _ _ _
        (containsSubstr_append_left _ _ _ (containsSubstr_append_left _ _ _
        (containsSubstr_append_left _ _ _ (containsSubstr_append_left _ _ _
        (containsSubstr_append_left _ _ _ (containsSubstr_append_left _ _ _
        (containsSubstr_append_left _ _ _ (containsSubstr_self_append _ _)))))))))
  · intro env h1 h2 h3
    obtain ⟨w, hw⟩ := queryUnfinished_some isUnfinishedCardTask env.actionStore h3
    have hb : (env.pendingCards.length == 0) = false := by simpa using h2
    have hfind : findUnfinishedCardProcessingTask env.guardQueryFails env.actionStore
        = some (foundOf w) := by
      rw [h1]
      simp [findUnfinishedCardProcessingTask, hw]
    refine ⟨foundOf w, ?_, ?_, ?_, ?_, ?_⟩
    · simp [executeCardProcessingWorkflow, hb, hfind]
    · simp [executeCardProcessingWorkflow, hb, hfind]
    · simp [executeCardProcessingWorkflow, hb, hfind]
    · exact containsSubstr_append_left _ _ _ (containsSubstr_self_append _ _)
    · exact containsSubstr_append_left _ _ _ (containsSubstr_append_left _ _ _
        (containsSubstr_append_left _ _ _ (containsSubstr_append_left _ _ _
        (containsSubstr_append_left _ _ _ (containsSubstr_append_left _ _ _
        (containsSubstr_append_left _ _ _ (containsSubstr_append_left _ _ _
        (containsSubstr_append_left _ _ _ (containsSubstr_self_append _ _)))))))))

def c3Env : RefWorkflowEnv :=
  ⟨[⟨"n1", "笔记一", "https://notion.so/n1", "2025"⟩],
   [⟨"t0", "Reference处理需求-11", "进行中", 3⟩], false, false, true, 7⟩

theorem c3_witness :
    ∃ t : FoundTask,
      (executeReferenceProcessingWorkflow c3Env).result
          = ⟨true, c3Env.unexecutedNotes.length, false, c3Env.emailOk, some t, none⟩ ∧
      (executeReferenceProcessingWorkflow c3Env).createdTasks = [] ∧
      (executeReferenceProcessingWorkflow c3Env).emails
          = [generateReferenceWarningEmailContent c3Env.unexecutedNotes t c3Env.now] ∧
      containsSubstr
          (generateReferenceWarningEmailContent c3Env.unexecutedNotes t c3Env.now).body
          t.title = true ∧
      containsSubstr
          (generateReferenceWarningEmailContent c3Env.unexecutedNotes t c3Env.now).body
          (toString c3Env.unexecutedNotes.length) = true :=
  c3_unresolved_task_guard.1 c3Env rfl (by decide) (by decide)

/-! ## The guard invariant (C2) -/

theorem digitChar_isDigit (m : Nat) (h : m < 10) : (Nat.digitChar m).isDigit = true := by
  interval_cases m <;> decide

theorem natDigitsAux_digits (fuel : Nat) :
    ∀ (n : Nat), ∀ c ∈ natDigitsAux fuel n, c.isDigit = true := by
  induction fuel with
  | zero =>
    intro n c hc
    simp [natDigitsAux] at hc
  | succ f ih =>
    intro n c hc
    simp only [natDigitsAux] at hc
    split at hc
    case isTrue h =>
      simp only [List.mem_singleton] at hc
      subst hc
      exact digitChar_isDigit n h
    case isFalse h =>
      rcases List.mem_append.mp hc with h1 | h2
      · exact ih _ c h1
      · simp only [List.mem_singleton] at h2
        subst h2
        exact digitChar_isDigit _ (Nat.mod_lt _ (by norm_num))

theorem mem_natDigitsStr_isDigit (n : Nat) (c : Char)
    (hc : c ∈ (natDigitsStr n).data) : c.isDigit = true :=
  natDigitsAux_digits (n + 1) n c hc

theorem not_containsSubstr_head (s pat : String) (c : Char) (hc : c ∈ pat.data)
    (h : c ∉ s.data) : containsSubstr s pat = false := by
  simp only [containsSubstr, decide_eq_false_iff_not]
  intro hinf
  exact h (hinf.subset hc)

/-- A created reference task title never matches the card category filter:
its title consists of the reference marker, a dash and decimal digits. -/
theorem refTitle_not_card (n : Nat) :
    containsSubstr ("Reference处理需求-" ++ natDigitsStr n) "卡片处理需求" = false := by
  apply not_containsSubstr_head _ _ '卡' (by decide)
  intro hmem
  rw [String.data_append] at hmem
  rcases List.mem_append.mp hmem with h1 | h2
  · exact absurd h1 (by decide)
  · exact absurd (mem_natDigitsStr_isDigit n '卡' h2) (by decide)

/-- A created card task title never matches the reference category filter. -/
theorem cardTitle_not_ref (n : Nat) :
    containsSubstr ("卡片处理需求-" ++ natDigitsStr n) "Reference处理需求" = false := by
  apply not_containsSubstr_head _ _ 'R' (by decide)
  intro hmem
  rw [String.data_append] at hmem
  rcases List.mem_append.mp hmem with h1 | h2
  · exact absurd h1 (by decide)
  · exact absurd (mem_natDigitsStr_isDigit n 'R' h2) (by decide)

theorem containsSubstr_marker_dash (n : Nat) :
    containsSubstr ("Reference处理需求-" ++ natDigitsStr n) "Reference处理需求" = true := by
  simp only [containsSubstr, decide_eq_true_eq]
  refine ⟨[], '-' :: (natDigitsStr n).data, ?_⟩
  rw [String.data_append]
  have hdata : ("Reference处理需求-" : String).data
      = ("Reference处理需求" : String).data ++ ['-'] := by decide
  rw [hdata]
  simp

theorem containsSubstr_card_marker_dash (n : Nat) :
    containsSubstr ("卡片处理需求-" ++ natDigitsStr n) "卡片处理需求" = true := by
  simp only [containsSubstr, decide_eq_true_eq]
  refine ⟨[], '-' :: (natDigitsStr n).data, ?_⟩
  rw [String.data_append]
  have hdata : ("卡片处理需求-" : String).data
      = ("卡片处理需求" : String).data ++ ['-'] := by decide
  rw [hdata]
  simp

theorem isUnfinishedRef_newRef (n : Nat) :
    isUnfinishedRefTask (newReferenceTask n) = true := by
  simp [isUnfinishedRefTask, newReferenceTask, containsSubstr_marker_dash]

theorem isUnfinishedCard_newRef (n : Nat) :
    isUnfinishedCardTask (newReferenceTask n) = false := by
  simp [isUnfinishedCardTask, newReferenceTask, refTitle_not_card]

theorem isUnfinishedCard_newCard (n : Nat) :
    isUnfinishedCardTask (newCardTask n) = true := by
  simp [isUnfinishedCardTask, newCardTask, containsSubstr_card_marker_dash]

theorem isUnfinishedRef_newCard (n : Nat) :
    isUnfinishedRefTask (newCardTask n) = false := by
  simp [isUnfinishedRefTask, newCardTask, cardTitle_not_ref]

theorem filter_eq_nil_of_query_none (pred : WorkItem → Bool) (store : List WorkItem)
    (h : (queryUnfinished pred store).head? = none) : store.filter pred = [] := by
  unfold queryUnfinished at h
  cases hs : insertionSortBy byCreatedDesc (store.filter pred) with
  | nil =>
    have hp := perm_insertionSortBy byCreatedDesc (store.filter pred)
    rw [hs] at hp
    exact (hp.symm.eq_nil)
  | cons w ws =>
    rw [hs] at h
    simp at h

theorem refWorkflow_preserves_guard (env : RefWorkflowEnv)
    (hq : env.guardQueryFails = false)
    (h0 : atMostOneUnfinished env.actionStore = true) :
    atMostOneUnfinished
      (env.actionStore ++ (executeReferenceProcessingWorkflow env).createdTasks) = true := by
  unfold executeReferenceProcessingWorkflow
  split
  case isTrue h => simpa using h0
  case isFalse h =>
    cases hfind : findUnfinishedReferenceProcessingTask env.guardQueryFails env.actionStore with
    | some t => simpa using h0
    | none =>
      rw [hq] at hfind
      simp only [findUnfinishedReferenceProcessingTask, if_false, Bool.false_eq_true,
        Option.map_eq_none'] at hfind
      have hfil : env.actionStore.filter isUnfinishedRefTask = [] :=
        filter_eq_nil_of_query_none isUnfinishedRefTask env.actionStore hfind
      have h0c : ((env.actionStore.filter isUnfinishedCardTask).length ≤ 1) := by
        simp only [atMostOneUnfinished, Bool.and_eq_true, decide_eq_true_eq] at h0
        exact h0.2
      by_cases hcf : env.createFails = true
      · rw [if_pos hcf]
        simpa using h0
      · rw [if_neg hcf]
        simp [atMostOneUnfinished, List.filter_append, hfil, isUnfinishedRef_newRef,
          isUnfinishedCard_newRef, h0c]

theorem cardWorkflow_preserves_guard (env : CardWorkflowEnv)
    (hq : env.guardQueryFails = false)
    (h0 : atMostOneUnfinished env.actionStore = true) :
    atMostOneUnfinished
      (env.actionStore ++ (executeCardProcessingWorkflow env).createdTasks) = true := by
  unfold executeCardProcessingWorkflow
  split
  case isTrue h => simpa using h0
  case isFalse h =>
    cases hfind : findUnfinishedCardProcessingTask env.guardQueryFails env.actionStore with
    | some t => simpa using h0
    | none =>
      rw [hq] at hfind
      simp only [findUnfinishedCardProcessingTask, if_false, Bool.false_eq_true,
        Option.map_eq_none'] at hfind
      have hfil : env.actionStore.filter isUnfinishedCardTask = [] :=
        filter_eq_nil_of_query_none isUnfinishedCardTask env.actionStore hfind
      have h0r : ((env.actionStore.filter isUnfinishedRefTask).length ≤ 1) := by
        simp only [atMostOneUnfinished, Bool.and_eq_true, decide_eq_true_eq] at h0
        exact h0.1
      by_cases hcf : env.createFails = true
      · rw [if_pos hcf]
        simpa using h0
      · rw [if_neg hcf]
        simp [atMostOneUnfinished, List.filter_append, hfil, isUnfinishedCard_newCard,
          isUnfinishedRef_newCard, h0r]

/-- C2 (amended): provided both guard queries run without error, every
visible state of the action store during the workflow phase of a run
keeps at most one unfinished work item per category, assuming the run
starts from a store satisfying the invariant. -/
theorem c2_guard_invariant (env : WorkflowPipelineEnv)
    (h1 : env.refGuardQueryFails = false) (h2 : env.cardGuardQueryFails = false)
    (h0 : atMostOneUnfinished env.actionStore = true) :
    ∀ s ∈ actionStoreTrace env, atMostOneUnfinished s = true := by
  intro s hs
  unfold actionStoreTrace at hs
  dsimp only at hs
  have hs1 : atMostOneUnfinished
      (env.actionStore ++ (executeReferenceProcessingWorkflow
        ⟨env.unexecutedNotes, env.actionStore, env.refGuardQueryFails,
         env.refCreateFails, env.emailOk, env.now⟩).createdTasks) = true :=
    refWorkflow_preserves_guard
      ⟨env.unexecutedNotes, env.actionStore, env.refGuardQueryFails,
       env.refCreateFails, env.emailOk, env.now⟩ h1 h0
  split at hs
  · simp only [List.mem_cons, List.not_mem_nil, or_false] at hs
    rcases hs with rfl | rfl | rfl
    · exact h0
    · exact hs1
    · exact cardWorkflow_preserves_guard
        ⟨env.pendingCards,
         env.actionStore ++ (executeReferenceProcessingWorkflow
           ⟨env.unexecutedNotes, env.actionStore, env.refGuardQueryFails,
            env.refCreateFails, env.emailOk, env.now⟩).createdTasks,
         env.cardGuardQueryFails, env.cardCreateFails, env.emailOk, env.now⟩ h2 hs1
  · simp only [List.mem_cons, List.not_mem_nil, or_false] at hs
    rcases hs with rfl | rfl
    · exact h0
    · exact hs1

/-- C2 counterexample: starting from a store that satisfies the
invariant but already holds one unfinished reference task, a run whose
reference guard query throws reaches a state with two unfinished
reference tasks — the guard creates a work item while an unfinished one
of the same category exists.  This refutes the frozen claim, which
admits no exception for failed guard queries. -/
def c2Unfinished : WorkItem := ⟨"t1", "Reference处理需求-11", "未开始", 5⟩

def c2Env : WorkflowPipelineEnv :=
  ⟨[⟨"n1", "笔记一", "https://notion.so/n1", "2025"⟩], [], [c2Unfinished],
   true, false, false, false, true, 7⟩

theorem c2_counterexample :
    atMostOneUnfinished c2Env.actionStore = true ∧
    (actionStoreTrace c2Env).any (fun s => !(atMostOneUnfinished s)) = true := by
  decide

def c2wEnv : WorkflowPipelineEnv :=
  ⟨[⟨"n1", "笔记一", "https://notion.so/n1", "2025"⟩],
   [⟨"卡一", "dw1", "n1", none⟩],
   [⟨"t9", "Reference处理需求-3", "完成", 3⟩],
   false, false, false, false, true, 7⟩

theorem c2_witness :
    atMostOneUnfinished ((actionStoreTrace c2wEnv).getD 2 []) = true :=
  c2_guard_invariant c2wEnv rfl rfl (by decide) ((actionStoreTrace c2wEnv).getD 2 [])
    (by decide)

/-! ## Idempotence of the sync pipeline (C1) -/

theorem contains_true_of_not_not (l : List String) (a : String)
    (h : ¬((!(l.contains a)) = true)) : l.contains a = true := by
  cases hb : l.contains a
  · rw [hb] at h
    simp at h
  · rfl

theorem not_not_contains (l : List String) (a : String) (h : l.contains a = true) :
    ¬((!(l.contains a)) = true) := by
  rw [h]
  simp

theorem getExisting_mono (target extra : List TargetRecord) (id : String)
    (h : (getExistingDiscussionIds target).contains id = true) :
    (getExistingDiscussionIds (target ++ extra)).contains id = true := by
  have hm : id ∈ getExistingDiscussionIds target := by simpa using h
  have hm2 : id ∈ getExistingDiscussionIds (target ++ extra) := by
    unfold getExistingDiscussionIds at hm ⊢
    rw [List.take_append_eq_append_take, List.map_append, List.filterMap_append]
    exact List.mem_append_left _ hm
  simpa using hm2

/-- A note that is still unexecuted after the status update was already
unexecuted before the run and had zero successful writes. -/
theorem pending_after_update (results : List WriteResult) (refStore : List Note) (n : Note)
    (hn : n ∈ getUnexecutedNotes
        (updateProcessedNotesStatus (getUnexecutedNotes refStore) results refStore)) :
    n ∈ getUnexecutedNotes refStore ∧ successCountFor results n.id = 0 := by
  unfold getUnexecutedNotes updateProcessedNotesStatus at hn
  unfold getUnexecutedNotes
  rcases List.mem_filter.mp hn with ⟨hmem, hauto⟩
  rcases List.mem_map.mp hmem with ⟨n₀, hn₀, hu⟩
  split at hu
  next hcond =>
    rw [← hu] at hauto
    exact absurd (show (("已执行" : String) == "未执行") = true from hauto) (by decide)
  next hcond =>
    subst hu
    have hpend : n₀ ∈ List.filter (fun m => m.automation == "未执行") refStore :=
      List.mem_filter.mpr ⟨hn₀, hauto⟩
    refine ⟨hpend, ?_⟩
    have hany : (List.filter (fun m => m.automation == "未执行") refStore).any
        (fun m => m.id == n₀.id) = true :=
      List.any_eq_true.mpr ⟨n₀, hpend, by simp⟩
    simp only [hany, Bool.true_and, decide_eq_true_eq] at hcond
    omega

/-- If a run with only successful writes leaves a pending note with zero
recorded successes, then every discussion of that note was already in the
fetched deduplication set. -/
theorem candidate_covered (st : SyncState) (wok : Nat → Bool) (H : ∀ i, wok i = true)
    (n : Note) (hn : n ∈ getUnexecutedNotes st.refStore)
    (hz : successCountFor
        (writeMultipleDiscussions wok
          (processMultipleDiscussions (newDiscussionsOf st))).results n.id = 0)
    (d : Discussion) (hd : d ∈ processNote n) :
    (getExistingDiscussionIds st.targetStore).contains d.discussionId = true := by
  by_contra hc
  rw [Bool.not_eq_true] at hc
  have hdall : d ∈ candidateDiscussions st := by
    unfold candidateDiscussions processMultipleNotes
    exact List.mem_flatMap.mpr ⟨n, hn, hd⟩
  have hdnew : d ∈ newDiscussionsOf st := by
    unfold newDiscussionsOf
    exact List.mem_filter.mpr ⟨hdall, by simpa using hc⟩
  obtain ⟨d₀, hd₀, hdeq⟩ := List.mem_map.mp hd
  have hsrc : d.sourceNote = some ⟨n.id, extractNoteTitle n, getNoteUrl n.id⟩ := by
    rw [← hdeq]
  have hpage : processDiscussion d ∈ processMultipleDiscussions (newDiscussionsOf st) :=
    List.mem_map_of_mem _ hdnew
  obtain ⟨i, hi, hip⟩ := List.mem_iff_getElem.mp hpage
  have hri : writeDiscussion (wok i) ((processMultipleDiscussions (newDiscussionsOf st))[i])
      ∈ (writeMultipleDiscussions wok (processMultipleDiscussions (newDiscussionsOf st))).results := by
    have hlt : i < ((processMultipleDiscussions (newDiscussionsOf st)).mapIdx
        (fun j p => writeDiscussion (wok j) p)).length := by
      simpa using hi
    have hgl : ((processMultipleDiscussions (newDiscussionsOf st)).mapIdx
        (fun j p => writeDiscussion (wok j) p))[i]
        = writeDiscussion (wok i) ((processMultipleDiscussions (newDiscussionsOf st))[i]) := by
      simp [List.getElem_mapIdx]
    show _ ∈ ((processMultipleDiscussions (newDiscussionsOf st)).mapIdx
      (fun j p => writeDiscussion (wok j) p))
    rw [← hgl]
    exact List.getElem_mem hlt
  have hpred : ((writeDiscussion (wok i) ((processMultipleDiscussions (newDiscussionsOf st))[i])).success
      && ((writeDiscussion (wok i) ((processMultipleDiscussions (newDiscussionsOf st))[i])).sourceNoteId
          == some n.id)) = true := by
    rw [hip, H i]
    simp [writeDiscussion, processDiscussion, hsrc]
  have hpos : 0 < successCountFor
      (writeMultipleDiscussions wok (processMultipleDiscussions (newDiscussionsOf st))).results n.id := by
    unfold successCountFor
    exact List.length_pos.mpr (List.ne_nil_of_mem (List.mem_filter.mpr ⟨hri, hpred⟩))
  omega

/-- If every candidate of the state is already in the fetched
deduplication set, a run writes nothing. -/
theorem sync_written_zero (st : SyncState) (wok : Nat → Bool)
    (h : ∀ d ∈ candidateDiscussions st,
        (getExistingDiscussionIds st.targetStore).contains d.discussionId = true) :
    (sync st wok).result.written = 0 := by
  unfold sync
  split
  · rfl
  · split
    · rfl
    · split
      · rfl
      · next h3 =>
        exfalso
        have hnil : newDiscussionsOf st = [] := by
          unfold newDiscussionsOf
          apply List.filter_eq_nil_iff.mpr
          intro d hd
          exact not_not_contains _ _ (h d hd)
        rw [hnil] at h3
        simp at h3

/-- C1 (amended): provided every write attempted in the first run
succeeds, a second run on the resulting state — with no new annotations
in between, since the reference notes and their comments are part of the
state and unchanged — writes nothing: every remaining candidate
discussion id is already in the deduplication set fetched from the
target store. -/
theorem c1_idempotent (st : SyncState) (wok₁ wok₂ : Nat → Bool)
    (H : ∀ i, wok₁ i = true) :
    (sync (sync st wok₁).state wok₂).result.written = 0 := by
  apply sync_written_zero
  by_cases h1 : ((getUnexecutedNotes st.refStore).length == 0) = true
  · have hstate : (sync st wok₁).state = st := by
      unfold sync
      rw [if_pos h1]
    rw [hstate]
    intro d hd
    have hpnil : getUnexecutedNotes st.refStore = [] := by
      simpa [List.length_eq_zero] using h1
    unfold candidateDiscussions processMultipleNotes at hd
    rw [hpnil] at hd
    simp at hd
  · by_cases h2 : ((candidateDiscussions st).length == 0) = true
    · have hstate : (sync st wok₁).state = st := by
        unfold sync
        rw [if_neg h1, if_pos h2]
      rw [hstate]
      intro d hd
      have hcnil : candidateDiscussions st = [] := by
        simpa [List.length_eq_zero] using h2
      rw [hcnil] at hd
      simp at hd
    · by_cases h3 : ((newDiscussionsOf st).length == 0) = true
      · have hstate : (sync st wok₁).state = st := by
          unfold sync
          rw [if_neg h1, if_neg h2, if_pos h3]
        rw [hstate]
        intro d hd
        have hnnil : newDiscussionsOf st = [] := by
          simpa [List.length_eq_zero] using h3
        unfold newDiscussionsOf at hnnil
        have hall := List.filter_eq_nil_iff.mp hnnil d hd
        exact contains_true_of_not_not _ _ hall
      · have hstate : (sync st wok₁).state
            = ⟨updateProcessedNotesStatus (getUnexecutedNotes st.refStore)
                 (writeMultipleDiscussions wok₁
                   (processMultipleDiscussions (newDiscussionsOf st))).results st.refStore,
               st.targetStore ++ createdRecords wok₁
                 (processMultipleDiscussions (newDiscussionsOf st))⟩ := by
          unfold sync
          rw [if_neg h1, if_neg h2, if_neg h3]
        rw [hstate]
        intro d hd
        unfold candidateDiscussions processMultipleNotes at hd
        obtain ⟨n, hn, hdn⟩ := List.mem_flatMap.mp hd
        obtain ⟨hn1, hz⟩ := pending_after_update _ st.refStore n hn
        exact getExisting_mono st.targetStore _ d.discussionId
          (candidate_covered st wok₁ H n hn1 hz d hdn)

/-- C1 counterexample: with one pending note holding one new discussion,
a first run whose single write fails leaves the note unexecuted and the
record unwritten; the second run — with no new annotations in between —
retries and writes one record, so its written count is 1, not 0. -/
def c1Block : Block :=
  ⟨"b1", "paragraph", [⟨"source text"⟩],
   [⟨"d1", [⟨"Q: hi"⟩], 1, some "alice", none, none⟩]⟩

def c1Note : Note := ⟨"n1", none, none, some "笔记一", "未执行", [c1Block]⟩

def c1State : SyncState := ⟨[c1Note], []⟩

theorem c1_counterexample :
    (sync c1State (fun _ => false)).result.written = 0 ∧
    (sync c1State (fun _ => false)).result.errors = 1 ∧
    (sync (sync c1State (fun _ => false)).state (fun _ => true)).result.written = 1 := by
  decide

theorem c1_witness :
    (sync (sync c1State (fun _ => true)).state (fun _ => true)).result.written = 0 :=
  c1_idempotent c1State (fun _ => true) (fun _ => true) (fun _ => rfl)

end NotionSync
